import Mathlib

/-!
Shallow embedding of `src/main.rs` of the `xh` command-line HTTP client,
with proofs of the specified properties of its request-assembly pipeline.

The repository source under `src/` contains only `main.rs`; the collaborator
modules (`cli`, `request_items`, `url`, `auth`, `printer`, `download`) and the
external HTTP library are modelled from the specification where their shapes
are needed, as noted on each such definition.
-/

namespace Xh

/-- Modelled from the spec: JSON literal values held by the `Json` body
variant, produced by the missing `request_items` module (§3 Data Model). -/
inductive JsonVal where
  | str : String → JsonVal
  | num : Int → JsonVal
  | jbool : Bool → JsonVal
  | null : JsonVal
  | arr : List JsonVal → JsonVal
  | obj : List (String × JsonVal) → JsonVal

/-- Modelled from the spec: a multipart part is either a text field or a file
reference (§3 Data Model, missing `request_items` module). -/
inductive Part where
  | text : String → Part
  | file : String → Part

/-- The `Body` tagged union of `request_items.rs` (module missing from `src/`;
variants and payloads modelled from the spec, §3 Data Model). `main.rs`
matches on exactly these four variants. -/
inductive Body where
  | raw : String → Body
  | form : List (String × String) → Body
  | multipart : List (String × Part) → Body
  | json : List (String × JsonVal) → Body

/-- The `Auth` tagged union of `auth.rs` (module missing from `src/`;
modelled from the spec, §3 Data Model). `main.rs` matches on these two
variants. -/
inductive Auth where
  | bearer : String → Auth
  | basic : String → String → Auth

/-- The `Print` policy of `cli.rs` (module missing from `src/`): four
booleans, in the argument order used by `Print::new` in `main.rs` lines
98–104 and described by the spec (§3, §4.5): request headers, request body,
response headers, response body. -/
structure Print where
  request_headers : Bool
  request_body : Bool
  response_headers : Bool
  response_body : Bool
deriving DecidableEq

/-- `Print::new(a, b, c, d)`, modelled from the spec ordering. -/
def Print.new (a b c d : Bool) : Print := ⟨a, b, c, d⟩

/-- The print-policy computation of `main.rs` lines 98–104:
`opt.print.unwrap_or(if verbose {all} else if atty(stdout) {resp} else {body})`. -/
def computePrint (override : Option Print) (verbose stdoutIsTty : Bool) : Print :=
  override.getD
    (if verbose then Print.new true true true true
     else if stdoutIsTty then Print.new false false true true
     else Print.new false false false true)

/-- Observable actions of one invocation, in program order. -/
inductive Effect where
  | readStdin
  | buildRequest
  | printRequestHeaders
  | printRequestBody
  | send
  | printResponseHeaders
  | downloadFile
  | printResponseBody
deriving DecidableEq

/-- The ways `main.rs` terminates with a non-zero exit: the explicit
conflict `return Err(...)` (line 53), the `unwrap` panic on a hostless URL
(line 43), the `unwrap` panic on a failed stdin read (line 30), a `?`-raised
error from `request_items.body` (line 49), and a `?`-raised transport error
from `client.execute` (line 113). All abort the invocation. -/
inductive ProgErr where
  | conflict
  | urlNoHost
  | stdinReadFailure
  | itemsBodyErr
  | sendErr
deriving DecidableEq

/-- The message each error surfaces; the conflict message is the string
literal of `main.rs` line 54, the two `unwrap` panics surface the panic
message of the Rust runtime. -/
def ProgErr.message : ProgErr → String
  | .conflict => "Request body (from stdin) and Request data (key=value) cannot be mixed"
  | .urlNoHost => "called Option::unwrap on a None value"
  | .stdinReadFailure => "called Result::unwrap on an Err value"
  | .itemsBodyErr => "request items body error"
  | .sendErr => "transport error"

/-- `body_from_stdin` (`main.rs` lines 25–33): returns `None` without
touching stdin when stdin is an interactive terminal or `--ignore-stdin` is
set; otherwise reads the whole stream (`read_to_string`, an `Effect.readStdin`)
and wraps it as `Body::Raw`, with a read failure aborting via `unwrap`. -/
def body_from_stdin (stdinIsTty ignoreStdin : Bool) (stdinData : Except Unit String) :
    List Effect × Except ProgErr (Option Body) :=
  if stdinIsTty || ignoreStdin then ([], .ok none)
  else
    match stdinData with
    | .error _ => ([.readStdin], .error .stdinReadFailure)
    | .ok s => ([.readStdin], .ok (some (.raw s)))

/-- First value associated with header name `n` (header names are kept in
the lowercased form the `http` header map uses). -/
def lookupHeader (hs : List (String × String)) (n : String) : Option String :=
  (hs.find? (fun p => p.1 == n)).map (fun p => p.2)

/-- Whether some header with name `n` is present. -/
def hasHeader (hs : List (String × String)) (n : String) : Bool :=
  hs.any (fun p => p.1 == n)

/-- Modelled from the spec: setting a header on the request builder, with the
replace semantics the spec assigns to the external HTTP library ("overridable
by an explicit user-supplied header of the same name appearing later", §4.6). -/
def headerInsert (hs : List (String × String)) (n v : String) : List (String × String) :=
  hs.filter (fun p => p.1 != n) ++ [(n, v)]

/-- Modelled from the spec: `.headers(user)` merges the user header map into
the builder's headers, each user-supplied name replacing a default (§4.6). -/
def mergeHeaders (base user : List (String × String)) : List (String × String) :=
  user.foldl (fun acc p => headerInsert acc p.1 p.2) base

/-- The subtractive pass of `main.rs` lines 91–93:
`headers_to_unset.iter().for_each(|h| request.headers_mut().remove(h))` —
`HeaderMap::remove` drops every value stored under the name. -/
def removeHeaders (hs : List (String × String)) (names : List String) :
    List (String × String) :=
  hs.filter (fun p => !names.contains p.1)

/-- The header state of the request builder after `main.rs` lines 63–81:
default injection of Accept, Accept-Encoding, Connection and Host, then the
body-dependent Accept / Content-Type overrides. -/
def bodyHeaders (host : String) (body : Option Body) : List (String × String) :=
  let base := headerInsert (headerInsert (headerInsert (headerInsert []
    "accept" "*/*") "accept-encoding" "gzip, deflate") "connection" "keep-alive")
    "host" host
  match body with
  | some (.form _) => base
  | some (.multipart _) => base
  | some (.json _) => headerInsert base "accept" "application/json, */*"
  | some (.raw _) =>
      headerInsert (headerInsert base "accept" "application/json, */*")
        "content-type" "application/json"
  | none => base

/-- The `reqwest::Request` as far as `main.rs` observes it: method, URL,
query pairs, header list, body and auth (spec §3 `OutboundRequest`). -/
structure OutboundRequest where
  method : String
  url : String
  query : List (String × String)
  headers : List (String × String)
  body : Option Body
  auth : Option Auth

/-- The builder chain of `main.rs` lines 62–89, up to `build()`: default and
body-dependent headers, auth, query, then the user header map. -/
def buildOutbound (method url host : String) (query : List (String × String))
    (userHeaders : List (String × String)) (body : Option Body)
    (auth : Option Auth) : OutboundRequest :=
  { method := method
    url := url
    query := query
    headers := mergeHeaders (bodyHeaders host body) userHeaders
    body := body
    auth := auth }

/-- The final subtractive pass over the built request (`main.rs` lines
91–93): only the header map is touched. -/
def applyUnset (req : OutboundRequest) (names : List String) : OutboundRequest :=
  { req with headers := removeHeaders req.headers names }

/-- The request `main.rs` hands to the transport: built, then stripped of
every name in `headers_to_unset`. -/
def finalRequest (method url host : String) (query : List (String × String))
    (userHeaders : List (String × String)) (body : Option Body)
    (auth : Option Auth) (headersToUnset : List String) : OutboundRequest :=
  applyUnset (buildOutbound method url host query userHeaders body auth) headersToUnset

/-- The CLI options `main.rs` reads from `Opt` (`cli.rs` is missing from
`src/`; field meanings from the spec §6). -/
structure Opt where
  method : String
  url : String
  form : Bool
  multipart : Bool
  ignoreStdin : Bool
  offline : Bool
  download : Bool
  verbose : Bool
  print : Option Print

/-- The collaborator and world inputs of one invocation: TTY states, the
stdin stream contents, the outputs of the missing `request_items`, `url` and
`auth` modules at this invocation, and whether the transport send succeeds. -/
structure Env where
  stdinIsTty : Bool
  stdoutIsTty : Bool
  stdinData : Except Unit String
  itemsBody : Except Unit (Option Body)
  urlHost : Option String
  query : List (String × String)
  userHeaders : List (String × String)
  headersToUnset : List String
  auth : Option Auth
  sendOk : Bool

/-- The request-side prints of `main.rs` lines 106–111, gated by the policy. -/
def printPhase (p : Print) : List Effect :=
  (if p.request_headers then [Effect.printRequestHeaders] else []) ++
  (if p.request_body then [Effect.printRequestBody] else [])

/-- The send-and-render tail of `main.rs` lines 112–122: skipped entirely
under `--offline`; otherwise `client.execute` (a `?`-propagated failure
aborts), then response headers per policy, then the body consumed by
`download_file` when `--download` is set, else printed per policy. -/
def sendPhase (offline download : Bool) (p : Print) (sendOk : Bool) :
    List Effect × Except ProgErr Unit :=
  if offline then ([], .ok ())
  else if sendOk then
    ([Effect.send] ++
      (if p.response_headers then [Effect.printResponseHeaders] else []) ++
      (if download then [Effect.downloadFile]
       else if p.response_body then [Effect.printResponseBody] else []),
     .ok ())
  else ([Effect.send], .error .sendErr)

/-- The `match` of `main.rs` lines 48–59 combining the request-items body
with the stdin body: both present is the conflict error, otherwise whichever
is present (or none) is the request body. -/
def resolveBody : Option Body → Option Body → Except ProgErr (Option Body)
  | some _, some _ => .error .conflict
  | some b, none => .ok (some b)
  | none, some b => .ok (some b)
  | none, none => .ok none

/-- The whole of `main` (`main.rs` lines 36–124) as a pure function from the
options and the invocation environment to the trace of observable effects and
the exit result, in program order: host extraction (line 43, `unwrap`), body
resolution with the stdin/items conflict check (lines 48–59), request build
and the unset pass (lines 62–96), print-policy computation (lines 98–104),
request prints, then the send phase. -/
def mainRun (opt : Opt) (env : Env) : List Effect × Except ProgErr Unit :=
  match env.urlHost with
  | none => ([], .error .urlNoHost)
  | some host =>
    match env.itemsBody with
    | .error _ => ([], .error .itemsBodyErr)
    | .ok itemsBody =>
      let stdinRes := body_from_stdin env.stdinIsTty opt.ignoreStdin env.stdinData
      match stdinRes.2 with
      | .error e => (stdinRes.1, .error e)
      | .ok stdinBody =>
        match resolveBody itemsBody stdinBody with
        | .error e => (stdinRes.1, .error e)
        | .ok body =>
          let _req := finalRequest opt.method opt.url host env.query env.userHeaders
            body env.auth env.headersToUnset
          let p := computePrint opt.print opt.verbose env.stdoutIsTty
          let tail := sendPhase opt.offline opt.download p env.sendOk
          (stdinRes.1 ++ [Effect.buildRequest] ++ printPhase p ++ tail.1, tail.2)

/-- A sample invocation's options, varied field-by-field in the witnesses. -/
def optSample : Opt :=
  { method := "GET", url := "http://example.com", form := false, multipart := false,
    ignoreStdin := false, offline := false, download := false, verbose := false,
    print := none }

/-- A sample invocation environment, varied field-by-field in the witnesses. -/
def envSample : Env :=
  { stdinIsTty := true, stdoutIsTty := true, stdinData := .ok "",
    itemsBody := .ok none, urlHost := some "example.com", query := [],
    userHeaders := [], headersToUnset := [], auth := none, sendOk := true }

/-- `body_from_stdin` produces either no effect or exactly one stdin read. -/
lemma body_from_stdin_shape (t i : Bool) (d : Except Unit String) :
    (body_from_stdin t i d).1 = [] ∨ (body_from_stdin t i d).1 = [Effect.readStdin] := by
  unfold body_from_stdin
  split
  · exact Or.inl rfl
  · cases d <;> exact Or.inr rfl

/-- Membership in a one-element conditional effect list. -/
lemma mem_ite_singleton (e x : Effect) (b : Bool) :
    e ∈ (if b then [x] else []) ↔ b = true ∧ e = x := by
  cases b <;> simp

/-- C2: the print policy follows the exact precedence of `main.rs` lines
98–104: an explicit override is used unchanged; otherwise verbose makes all
four booleans true; otherwise an interactive stdout yields exactly
{response headers, response body}; otherwise exactly {response body}. -/
theorem print_policy_precedence (p : Print) (v t : Bool) :
    computePrint (some p) v t = p ∧
    computePrint none true t = Print.new true true true true ∧
    computePrint none false true = Print.new false false true true ∧
    computePrint none false false = Print.new false false false true :=
  ⟨rfl, rfl, rfl, rfl⟩

/-- C3: stdin supplies no body (and is never read) exactly when stdin is an
interactive terminal or the ignore-stdin flag is set; otherwise the read is
attempted and a successful read buffers the whole stream as the Raw body. -/
theorem stdin_capture (t i : Bool) (d : Except Unit String) :
    (t = true ∨ i = true → body_from_stdin t i d = ([], .ok none)) ∧
    (t = false → i = false →
      Effect.readStdin ∈ (body_from_stdin t i d).1 ∧
      ∀ s, d = .ok s → body_from_stdin t i d = ([Effect.readStdin], .ok (some (.raw s)))) := by
  constructor
  · rintro (h | h) <;> subst h <;> simp [body_from_stdin]
  · rintro rfl rfl
    cases d with
    | error e => simp [body_from_stdin]
    | ok s => simp [body_from_stdin]

/-- Witness for C3 at concrete inputs: interactive stdin yields no body,
piped stdin with content "hi" yields the Raw body "hi" after one read. -/
theorem stdin_capture_witness :
    body_from_stdin true false (Except.ok "x") = ([], .ok none) ∧
    body_from_stdin false false (Except.ok "hi") =
      ([Effect.readStdin], .ok (some (.raw "hi"))) :=
  ⟨(stdin_capture true false (Except.ok "x")).1 (Or.inl rfl),
   ((stdin_capture false false (Except.ok "hi")).2 rfl rfl).2 "hi" rfl⟩

/-- C5: when the resolved URL has no host component, the invocation aborts
with the host-extraction failure (`url.host().unwrap()`, `main.rs` line 43),
a non-zero exit with no request built and none sent. -/
theorem hostless_url_aborts (opt : Opt) (env : Env) (h : env.urlHost = none) :
    mainRun opt env = ([], .error .urlNoHost) ∧
    Effect.buildRequest ∉ (mainRun opt env).1 ∧
    Effect.send ∉ (mainRun opt env).1 := by
  have hm : mainRun opt env = ([], .error .urlNoHost) := by
    unfold mainRun; rw [h]
  refine ⟨hm, ?_, ?_⟩ <;> rw [hm] <;> simp

/-- Witness for C5: a hostless resolution aborts the sample invocation. -/
theorem hostless_url_aborts_witness :
    mainRun optSample { envSample with urlHost := none } = ([], .error .urlNoHost) :=
  (hostless_url_aborts optSample { envSample with urlHost := none } rfl).1

/-- C6: when stdin is read (piped, not ignored) and the read fails, the
failure is fatal (`read_to_string(..).unwrap()`, `main.rs` line 30): the
invocation ends in the stdin-read error and nothing is sent. -/
theorem stdin_read_failure_fatal (opt : Opt) (env : Env) (host : String)
    (ib : Option Body) (hh : env.urlHost = some host) (hib : env.itemsBody = .ok ib)
    (ht : env.stdinIsTty = false) (hi : opt.ignoreStdin = false)
    (hd : env.stdinData = .error ()) :
    mainRun opt env = ([Effect.readStdin], .error .stdinReadFailure) ∧
    Effect.send ∉ (mainRun opt env).1 := by
  have hm : mainRun opt env = ([Effect.readStdin], .error .stdinReadFailure) := by
    unfold mainRun
    rw [hh, hib, ht, hi, hd]
    simp [body_from_stdin]
  exact ⟨hm, by rw [hm]; simp⟩

/-- Witness for C6: a failing piped stdin read aborts the sample invocation. -/
theorem stdin_read_failure_fatal_witness :
    mainRun optSample { envSample with stdinIsTty := false, stdinData := .error () } =
      ([Effect.readStdin], .error .stdinReadFailure) :=
  (stdin_read_failure_fatal optSample
    { envSample with stdinIsTty := false, stdinData := .error () }
    "example.com" none rfl rfl rfl rfl rfl).1

/-- C1: when the request items yield a body and a piped, non-ignored stdin
also supplies one, the invocation fails with the conflict error of `main.rs`
lines 52–56 — whatever the contents of either body — and no request is built
or sent. -/
theorem stdin_items_conflict (opt : Opt) (env : Env) (host : String) (b : Body)
    (s : String) (hh : env.urlHost = some host)
    (hib : env.itemsBody = .ok (some b)) (ht : env.stdinIsTty = false)
    (hi : opt.ignoreStdin = false) (hd : env.stdinData = .ok s) :
    mainRun opt env = ([Effect.readStdin], .error .conflict) ∧
    ProgErr.message .conflict =
      "Request body (from stdin) and Request data (key=value) cannot be mixed" ∧
    Effect.send ∉ (mainRun opt env).1 ∧
    Effect.buildRequest ∉ (mainRun opt env).1 := by
  have hm : mainRun opt env = ([Effect.readStdin], .error .conflict) := by
    unfold mainRun
    rw [hh, hib, ht, hi, hd]
    simp [body_from_stdin, resolveBody]
  refine ⟨hm, rfl, ?_, ?_⟩ <;> rw [hm] <;> simp

/-- Witness for C1: a form body from items plus piped stdin content makes the
sample invocation fail with the conflict error. -/
theorem stdin_items_conflict_witness :
    mainRun optSample
      { envSample with
        stdinIsTty := false
        stdinData := .ok "stdin body"
        itemsBody := .ok (some (.form [("k", "v")])) } =
      ([Effect.readStdin], .error .conflict) :=
  (stdin_items_conflict optSample
    { envSample with
      stdinIsTty := false
      stdinData := .ok "stdin body"
      itemsBody := .ok (some (.form [("k", "v")])) }
    "example.com" (.form [("k", "v")]) "stdin body" rfl rfl rfl rfl rfl).1

/-- C4: the builder of `main.rs` lines 62–81 injects Accept `*/*` by default,
overridden to `application/json, */*` exactly for the Json and Raw body
variants; injects Content-Type `application/json` exactly for the Raw
variant; and always injects Accept-Encoding, Connection `keep-alive` and the
resolved Host. -/
theorem default_header_injection (host : String) (body : Option Body) :
    lookupHeader (bodyHeaders host body) "accept" =
      some (match body with
            | some (.json _) => "application/json, */*"
            | some (.raw _) => "application/json, */*"
            | _ => "*/*") ∧
    lookupHeader (bodyHeaders host body) "content-type" =
      (match body with
       | some (.raw _) => some "application/json"
       | _ => none) ∧
    lookupHeader (bodyHeaders host body) "accept-encoding" = some "gzip, deflate" ∧
    lookupHeader (bodyHeaders host body) "connection" = some "keep-alive" ∧
    lookupHeader (bodyHeaders host body) "host" = some host := by
  cases body with
  | none => exact ⟨rfl, rfl, rfl, rfl, rfl⟩
  | some b => cases b <;> exact ⟨rfl, rfl, rfl, rfl, rfl⟩

/-- A name absent from a list does not test as contained. -/
lemma contains_eq_false_of_not_mem (names : List String) (n : String)
    (h : n ∉ names) : names.contains n = false := by
  cases hc : names.contains n
  · rfl
  · exact absurd (List.elem_iff.mp hc) h

/-- The subtractive pass leaves no header whose name is in the removal set. -/
lemma hasHeader_removeHeaders (hs : List (String × String)) (names : List String)
    (n : String) (h : n ∈ names) : hasHeader (removeHeaders hs names) n = false := by
  cases hv : hasHeader (removeHeaders hs names) n
  · rfl
  · exfalso
    simp only [hasHeader, removeHeaders] at hv
    obtain ⟨p, hp, hpe⟩ := List.any_eq_true.mp hv
    have hpn : p.1 = n := by simpa using hpe
    have hfilter := (List.mem_filter.mp hp).2
    have hc : names.contains n = true := List.elem_iff.mpr h
    rw [hpn, hc] at hfilter
    simp at hfilter

/-- Setting one header keeps every already-present header name present. -/
lemma hasHeader_headerInsert_of (hs : List (String × String)) (m v n : String)
    (h : hasHeader hs n = true) : hasHeader (headerInsert hs m v) n = true := by
  simp only [hasHeader, headerInsert, List.any_append]
  by_cases hmn : m = n
  · subst hmn
    simp
  · simp only [hasHeader] at h
    obtain ⟨p, hp, hpe⟩ := List.any_eq_true.mp h
    have hpn : p.1 = n := by simpa using hpe
    rw [Bool.or_eq_true]
    left
    refine List.any_eq_true.mpr ⟨p, List.mem_filter.mpr ⟨hp, ?_⟩, hpe⟩
    simp only [bne_iff_ne, ne_eq, hpn]
    exact fun e => hmn e.symm

/-- Merging the user headers keeps every already-present header name present. -/
lemma hasHeader_mergeHeaders_of (base user : List (String × String)) (n : String)
    (h : hasHeader base n = true) : hasHeader (mergeHeaders base user) n = true := by
  induction user generalizing base with
  | nil => exact h
  | cons p tl ih => exact ih _ (hasHeader_headerInsert_of _ _ _ _ h)

/-- The default injection always leaves a Host header present. -/
lemma hasHeader_bodyHeaders_host (host : String) (body : Option Body) :
    hasHeader (bodyHeaders host body) "host" = true := by
  cases body with
  | none => rfl
  | some b => cases b <;> rfl

/-- C7: every name in the headers-to-remove set is stripped by the final
subtractive pass of `main.rs` lines 91–93; in particular the auto-injected
Host header is present after build and gone from the final request whenever
"host" is in the unset set, even though no user header set it. -/
theorem unset_pass_strips (method url host : String)
    (query userHeaders : List (String × String)) (body : Option Body)
    (auth : Option Auth) (unset : List String) :
    (∀ n ∈ unset,
      hasHeader (finalRequest method url host query userHeaders body auth unset).headers
        n = false) ∧
    hasHeader (buildOutbound method url host query userHeaders body auth).headers
      "host" = true ∧
    ("host" ∈ unset →
      hasHeader (finalRequest method url host query userHeaders body auth unset).headers
        "host" = false) := by
  refine ⟨?_, ?_, ?_⟩
  · intro n hn
    exact hasHeader_removeHeaders _ _ _ hn
  · exact hasHeader_mergeHeaders_of _ _ _ (hasHeader_bodyHeaders_host host body)
  · intro hh
    exact hasHeader_removeHeaders _ _ _ hh

/-- Witness for C7: on a bare GET with only the unset directive for Host,
the built request carries the auto-injected Host header and the final
request does not. -/
theorem unset_pass_strips_witness :
    hasHeader (buildOutbound "GET" "http://example.com" "example.com" [] [] none
      none).headers "host" = true ∧
    hasHeader (finalRequest "GET" "http://example.com" "example.com" [] [] none none
      ["host"]).headers "host" = false :=
  ⟨(unset_pass_strips "GET" "http://example.com" "example.com" [] [] none none
      ["host"]).2.1,
   (unset_pass_strips "GET" "http://example.com" "example.com" [] [] none none
      ["host"]).2.2 (by simp)⟩

/-- C10: the final header-removal pass changes only the header map — method,
URL, query, body and auth are untouched; a header whose name is not in the
unset set survives; every name in the set ends absent; and when no name in
the set occurs among the headers the request is entirely unchanged. -/
theorem unset_pass_frame (req : OutboundRequest) (names : List String) :
    (applyUnset req names).method = req.method ∧
    (applyUnset req names).url = req.url ∧
    (applyUnset req names).query = req.query ∧
    (applyUnset req names).body = req.body ∧
    (applyUnset req names).auth = req.auth ∧
    (∀ n v, (n, v) ∈ req.headers → n ∉ names →
      (n, v) ∈ (applyUnset req names).headers) ∧
    (∀ n ∈ names, hasHeader (applyUnset req names).headers n = false) ∧
    ((∀ p ∈ req.headers, p.1 ∉ names) → applyUnset req names = req) := by
  refine ⟨rfl, rfl, rfl, rfl, rfl, ?_, ?_, ?_⟩
  · intro n v hmem hnot
    refine List.mem_filter.mpr ⟨hmem, ?_⟩
    rw [contains_eq_false_of_not_mem _ _ hnot]
    rfl
  · intro n hn
    exact hasHeader_removeHeaders _ _ _ hn
  · intro h
    have hfix : removeHeaders req.headers names = req.headers :=
      List.filter_eq_self.mpr fun p hp => by
        rw [contains_eq_false_of_not_mem _ _ (h p hp)]; rfl
    show { req with headers := removeHeaders req.headers names } = req
    rw [hfix]

/-- Witness for C10: removing the absent name "x" keeps the header ("a","1")
and leaves the whole request unchanged. -/
theorem unset_pass_frame_witness :
    ("a", "1") ∈ (applyUnset ⟨"GET", "u", [], [("a", "1")], none, none⟩ ["x"]).headers ∧
    applyUnset ⟨"GET", "u", [], [("a", "1")], none, none⟩ ["x"] =
      ⟨"GET", "u", [], [("a", "1")], none, none⟩ :=
  ⟨(unset_pass_frame ⟨"GET", "u", [], [("a", "1")], none, none⟩ ["x"]).2.2.2.2.2.1
      "a" "1" (by simp) (by decide),
   (unset_pass_frame ⟨"GET", "u", [], [("a", "1")], none, none⟩ ["x"]).2.2.2.2.2.2.2
      (by decide)⟩

/-- C8: with the offline flag set the invocation never reaches the transport
(`main.rs` line 112 guards lines 113–121): no send, no response-header or
response-body print, no download; and whenever the invocation succeeds the
request was fully built. -/
theorem offline_builds_but_never_sends (opt : Opt) (env : Env)
    (hoff : opt.offline = true) :
    Effect.send ∉ (mainRun opt env).1 ∧
    Effect.printResponseHeaders ∉ (mainRun opt env).1 ∧
    Effect.printResponseBody ∉ (mainRun opt env).1 ∧
    Effect.downloadFile ∉ (mainRun opt env).1 ∧
    ((mainRun opt env).2 = .ok () → Effect.buildRequest ∈ (mainRun opt env).1) := by
  obtain ⟨m, u, fo, mu, ig, off, dl, vb, pr⟩ := opt
  obtain ⟨sit, sot, sd, ib, uh, q, uhdr, h2u, au, so⟩ := env
  dsimp only at hoff
  subst hoff
  cases uh with
  | none => simp [mainRun]
  | some host =>
    cases ib with
    | error e => simp [mainRun]
    | ok itemsBody =>
      cases itemsBody <;> cases sit <;> cases ig <;> cases sd <;>
        simp [mainRun, body_from_stdin, resolveBody, sendPhase, printPhase,
          mem_ite_singleton]

/-- Witness for C8: the offline sample invocation builds the request and
never sends. -/
theorem offline_builds_but_never_sends_witness :
    Effect.send ∉ (mainRun { optSample with offline := true } envSample).1 ∧
    Effect.buildRequest ∈ (mainRun { optSample with offline := true } envSample).1 :=
  ⟨(offline_builds_but_never_sends { optSample with offline := true } envSample rfl).1,
   (offline_builds_but_never_sends { optSample with offline := true } envSample
      rfl).2.2.2.2 rfl⟩

/-- C9: the response body is consumed exactly one way (`main.rs` lines
117–121): never both downloaded and printed; when a response is received and
the download flag is set it is downloaded and not printed; otherwise it is
printed exactly when the print policy's response-body boolean is true. -/
theorem response_body_single_consumption (opt : Opt) (env : Env) :
    ¬(Effect.downloadFile ∈ (mainRun opt env).1 ∧
      Effect.printResponseBody ∈ (mainRun opt env).1) ∧
    (opt.download = true → Effect.send ∈ (mainRun opt env).1 → env.sendOk = true →
      Effect.downloadFile ∈ (mainRun opt env).1 ∧
      Effect.printResponseBody ∉ (mainRun opt env).1) ∧
    (opt.download = false → Effect.send ∈ (mainRun opt env).1 → env.sendOk = true →
      (Effect.printResponseBody ∈ (mainRun opt env).1 ↔
        (computePrint opt.print opt.verbose env.stdoutIsTty).response_body = true)) := by
  obtain ⟨m, u, fo, mu, ig, off, dl, vb, pr⟩ := opt
  obtain ⟨sit, sot, sd, ib, uh, q, uhdr, h2u, au, so⟩ := env
  dsimp only
  cases uh with
  | none => simp [mainRun]
  | some host =>
    cases ib with
    | error e => simp [mainRun]
    | ok itemsBody =>
      cases itemsBody <;> cases sit <;> cases ig <;> cases sd <;>
        cases off <;> cases dl <;> cases so <;>
        simp [mainRun, body_from_stdin, resolveBody, sendPhase, printPhase,
          mem_ite_singleton]

/-- Witness for C9: in the sample invocation with the download flag, the
received response is downloaded and not printed. -/
theorem response_body_single_consumption_witness :
    Effect.downloadFile ∈ (mainRun { optSample with download := true } envSample).1 ∧
    Effect.printResponseBody ∉ (mainRun { optSample with download := true } envSample).1 :=
  (response_body_single_consumption { optSample with download := true } envSample).2.1
    rfl (by decide) rfl

end Xh
